import Mathlib

/-!
Verification of the compound-miter-calculator calculation core.

The TypeScript source is embedded shallowly over the real numbers:
JavaScript `number` arithmetic becomes exact real arithmetic,
`Math.sin` / `Math.asin` / ... become `Real.sin` / `Real.arcsin` / ...,
`Number(x.toFixed(1))` becomes rounding to the nearest tenth (`round10`),
and a function that `throw`s becomes an `Except String` value.
-/

open Real

noncomputable section

/-- Degrees to radians, from `toRadians` in `lib/calculations/angles.ts`. -/
def toRadians (degrees : ℝ) : ℝ := degrees * π / 180

/-- Radians to degrees, from `toDegrees` in `lib/calculations/angles.ts`. -/
def toDegrees (radians : ℝ) : ℝ := radians * 180 / π

/-- Real model of `Number(x.toFixed(1))`: round to one decimal place. -/
def round10 (x : ℝ) : ℝ := ((round (x * 10) : ℤ) : ℝ) / 10

/-- Result record of the shipped `calculateAngles` (`lib/calculations/angles.ts`). -/
structure AngleResults where
  bladeTilt : ℝ
  bladeTiltComplement : ℝ
  miterGauge : ℝ
  miterGaugeComplement : ℝ
  trimAngle : ℝ
  interiorAngle : ℝ
  miterAngle : ℝ

/-- Body of the shipped `calculateAngles` after input validation passes. -/
def anglesCore (numberOfSides sideAngle : ℝ) : AngleResults :=
  let interiorAngle := (numberOfSides - 2) * 180 / numberOfSides
  let cornerAngle := 180 - interiorAngle
  let miterAngle := cornerAngle / 2
  let sideAngleRad := toRadians sideAngle
  let miterAngleRad := toRadians miterAngle
  -- β = arcsin(sin(miter angle) × sin(α))
  let bladeTilt := toDegrees (arcsin (sin miterAngleRad * sin sideAngleRad))
  -- γ_complement = arctan(cos(α) × tan(M)), γ = 90° − γ_complement
  let miterGaugeComplement := toDegrees (arctan (cos sideAngleRad * tan miterAngleRad))
  let trimAngle := sideAngle
  -- round the primary angles first, then derive the complements
  let bladeTiltRounded := round10 bladeTilt
  let bladeTiltComplement := round10 (90 - bladeTiltRounded)
  let miterGaugeComplementRounded := round10 miterGaugeComplement
  let miterGaugeFinal := round10 (90 - miterGaugeComplementRounded)
  { bladeTilt := bladeTiltRounded
    bladeTiltComplement := bladeTiltComplement
    miterGauge := miterGaugeFinal
    miterGaugeComplement := miterGaugeComplementRounded
    trimAngle := round10 trimAngle
    interiorAngle := round10 interiorAngle
    miterAngle := round10 miterAngle }

/-- Shipped `calculateAngles` from `lib/calculations/angles.ts`: validates the
input ranges and otherwise returns the computed record. -/
def calculateAngles (numberOfSides sideAngle : ℝ) : Except String AngleResults :=
  if numberOfSides < 3 ∨ numberOfSides > 60 then
    Except.error ("Number of sides must be between 3 and 60")
  else if sideAngle < 1 ∨ sideAngle > 90 then
    Except.error ("Side angle must be between 1 and 90 degrees")
  else
    Except.ok (anglesCore numberOfSides sideAngle)

/-- Result record of the earlier (legacy) `calculateAngles` version. -/
structure AngleResultsLegacy where
  bladeTilt : ℝ
  miterGauge : ℝ
  trimAngle : ℝ
  interiorAngle : ℝ
  miterAngle : ℝ

/-- Body of the earlier `calculateAngles` version after validation:
`β = arctan(tan(α) × sin(miter angle))`. -/
def anglesCoreLegacy (numberOfSides sideAngle : ℝ) : AngleResultsLegacy :=
  let interiorAngle := (numberOfSides - 2) * 180 / numberOfSides
  let cornerAngle := 180 - interiorAngle
  let miterAngle := cornerAngle / 2
  let sideAngleRad := toRadians sideAngle
  let miterAngleRad := toRadians miterAngle
  let bladeTilt := toDegrees (arctan (tan sideAngleRad * sin miterAngleRad))
  let miterGauge := toDegrees (arctan (cos sideAngleRad * tan miterAngleRad))
  let trimAngle := 90 - interiorAngle / 2
  { bladeTilt := round10 bladeTilt
    miterGauge := round10 miterGauge
    trimAngle := round10 trimAngle
    interiorAngle := round10 interiorAngle
    miterAngle := round10 miterAngle }

/-- Earlier `calculateAngles` version (same validation, atan-based blade tilt). -/
def calculateAnglesLegacy (numberOfSides sideAngle : ℝ) : Except String AngleResultsLegacy :=
  if numberOfSides < 3 ∨ numberOfSides > 60 then
    Except.error ("Number of sides must be between 3 and 60")
  else if sideAngle < 1 ∨ sideAngle > 90 then
    Except.error ("Side angle must be between 1 and 90 degrees")
  else
    Except.ok (anglesCoreLegacy numberOfSides sideAngle)

/-- `calculatePolygonArea` from `lib/calculations/volume.ts`:
area of a regular polygon from its circumscribed-circle diameter. -/
def calculatePolygonArea (diameter numberOfSides : ℝ) : ℝ :=
  let radius := diameter / 2
  let angleRad := toRadians (360 / numberOfSides)
  numberOfSides * radius ^ 2 * sin angleRad / 2

/-- `calculateInteriorVolume` from `lib/calculations/volume.ts`. -/
def calculateInteriorVolume (diameter height numberOfSides sideAngle thickness : ℝ) : ℝ :=
  let interiorBaseDiameter := diameter - 2 * thickness
  if interiorBaseDiameter ≤ 0 then 0
  else
    let taperAngle := 90 - sideAngle
    let taperAngleRad := toRadians taperAngle
    let diameterReduction := 2 * height * tan taperAngleRad
    let interiorTopDiameter := interiorBaseDiameter - diameterReduction
    if interiorTopDiameter ≤ 0 then
      calculatePolygonArea interiorBaseDiameter numberOfSides * height / 3
    else
      let baseArea := calculatePolygonArea interiorBaseDiameter numberOfSides
      let topArea := calculatePolygonArea interiorTopDiameter numberOfSides
      height / 3 * (baseArea + topArea + Real.sqrt (baseArea * topArea))

/-- `calculateStockWidth` from `lib/calculations/angles.ts`. -/
def calculateStockWidth (diameter numberOfSides sideAngle : ℝ) : ℝ :=
  let sideAngleRad := toRadians sideAngle
  let segmentAngle := toRadians (180 / numberOfSides)
  diameter * sin segmentAngle / cos sideAngleRad

/-- `calculateDistanceAcrossFlats` from `lib/calculations/angles.ts`; the side
count is the integer the JavaScript parity test `numberOfSides % 2 !== 0`
operates on. -/
def calculateDistanceAcrossFlats (diameter : ℝ) (numberOfSides : ℤ)
    (thickness : ℝ) : Option ℝ :=
  if numberOfSides % 2 ≠ 0 then none
  else
    let outerDiameter := diameter + 2 * thickness
    let angleRad := toRadians (180 / (numberOfSides : ℝ))
    some (outerDiameter * cos angleRad)

/-- `hasParallelSides` from `lib/calculations/angles.ts`. -/
def hasParallelSides (numberOfSides : ℤ) : Bool :=
  numberOfSides % 2 == 0

/-- `calculatePieceLength` from `lib/calculations/material.ts`:
slant length of a side piece. -/
def calculatePieceLength (height sideAngle : ℝ) : ℝ :=
  let sideAngleRad := toRadians sideAngle
  height / sin sideAngleRad

/-- `CONVERSIONS.INCH_TO_MM` from `lib/utils/unitConversions.ts`. -/
def INCH_TO_MM : ℝ := 25.4

/-- `CONVERSIONS.CM_TO_MM`. -/
def CM_TO_MM : ℝ := 10

/-- `CONVERSIONS.GALLON_TO_CUBIC_INCHES`. -/
def GALLON_TO_CUBIC_INCHES : ℝ := 231

/-- `CONVERSIONS.QUART_TO_GALLONS`. -/
def QUART_TO_GALLONS : ℝ := 0.25

/-- `CONVERSIONS.LITER_TO_CUBIC_CM`. -/
def LITER_TO_CUBIC_CM : ℝ := 1000

/-- `CONVERSIONS.CUBIC_METER_TO_CUBIC_CM`. -/
def CUBIC_METER_TO_CUBIC_CM : ℝ := 1000000

/-- `CONVERSIONS.BOARD_FOOT_TO_CUBIC_INCHES`. -/
def BOARD_FOOT_TO_CUBIC_INCHES : ℝ := 144

/-- `calculateBoardFeet` from `lib/calculations/material.ts`. -/
def calculateBoardFeet (height stockWidth thickness numberOfSides sideAngle : ℝ)
    (includeWaste : Bool) : ℝ :=
  let pieceLength := calculatePieceLength height sideAngle
  let lengthInches := pieceLength / INCH_TO_MM
  let widthInches := stockWidth / INCH_TO_MM
  let thicknessInches := thickness / INCH_TO_MM
  let boardFeet := lengthInches * widthInches * thicknessInches * numberOfSides /
    BOARD_FOOT_TO_CUBIC_INCHES
  if includeWaste then boardFeet * 1.1 else boardFeet

/-- `calculateCubicMeters` from `lib/calculations/material.ts`. -/
def calculateCubicMeters (height stockWidth thickness numberOfSides sideAngle : ℝ)
    (includeWaste : Bool) : ℝ :=
  let pieceLength := calculatePieceLength height sideAngle
  let cubicMm := pieceLength * stockWidth * thickness * numberOfSides
  let cubicMmWithWaste := if includeWaste then cubicMm * 1.1 else cubicMm
  cubicMmWithWaste / 1000000000

/-- `UnitSystem` from `lib/utils/unitConversions.ts`. -/
inductive UnitSystem
  | imperial
  | metric
deriving DecidableEq

/-- `VolumeUnit` from `lib/utils/unitConversions.ts`. -/
inductive VolumeUnit
  | cubic_inches
  | gallons
  | quarts
  | fluid_ounces
  | cubic_centimeters
  | liters
  | milliliters
  | cubic_meters
deriving DecidableEq

/-- `convertVolume` from `lib/utils/unitConversions.ts`. -/
def convertVolume (cubicMm : ℝ) (targetUnit : VolumeUnit) : ℝ :=
  let cubicInches := cubicMm / INCH_TO_MM ^ 3
  let cubicCm := cubicMm / CM_TO_MM ^ 3
  match targetUnit with
  | .cubic_inches => cubicInches
  | .gallons => cubicInches / GALLON_TO_CUBIC_INCHES
  | .quarts => cubicInches / GALLON_TO_CUBIC_INCHES / QUART_TO_GALLONS
  | .fluid_ounces => cubicInches / GALLON_TO_CUBIC_INCHES * 128
  | .cubic_centimeters => cubicCm
  | .liters => cubicCm / LITER_TO_CUBIC_CM
  | .milliliters => cubicCm
  | .cubic_meters => cubicCm / CUBIC_METER_TO_CUBIC_CM

/-- `getSmartVolumeUnit` from `lib/utils/unitConversions.ts`. -/
def getSmartVolumeUnit (cubicMm : ℝ) (unitSystem : UnitSystem) : VolumeUnit :=
  match unitSystem with
  | .imperial =>
    let gallons := convertVolume cubicMm VolumeUnit.gallons
    if gallons < 0.25 then .fluid_ounces
    else if gallons < 1 then .quarts
    else .gallons
  | .metric =>
    let liters := convertVolume cubicMm VolumeUnit.liters
    if liters < 0.1 then .milliliters
    else if liters < 1000 then .liters
    else .cubic_meters

/-! Basic lemmas about validation and rounding. -/

lemma calculateAngles_ok {n a : ℝ} (h3 : 3 ≤ n) (h60 : n ≤ 60) (h1 : 1 ≤ a)
    (h90 : a ≤ 90) : calculateAngles n a = Except.ok (anglesCore n a) := by
  unfold calculateAngles
  rw [if_neg (by push_neg; exact ⟨by linarith, by linarith⟩),
    if_neg (by push_neg; exact ⟨by linarith, by linarith⟩)]

lemma calculateAnglesLegacy_ok {n a : ℝ} (h3 : 3 ≤ n) (h60 : n ≤ 60) (h1 : 1 ≤ a)
    (h90 : a ≤ 90) : calculateAnglesLegacy n a = Except.ok (anglesCoreLegacy n a) := by
  unfold calculateAnglesLegacy
  rw [if_neg (by push_neg; exact ⟨by linarith, by linarith⟩),
    if_neg (by push_neg; exact ⟨by linarith, by linarith⟩)]

/-- `round10` is the identity on exact tenths. -/
lemma round10_int_div_ten (m : ℤ) : round10 ((m : ℝ) / 10) = (m : ℝ) / 10 := by
  unfold round10
  rw [div_mul_cancel₀ _ (by norm_num : (10 : ℝ) ≠ 0), round_intCast]

lemma round10_ninety_sub (x : ℝ) : round10 (90 - round10 x) + round10 x = 90 := by
  have h : 90 - round10 x = ((900 - round (x * 10) : ℤ) : ℝ) / 10 := by
    unfold round10
    push_cast
    ring
  rw [h, round10_int_div_ten]
  unfold round10
  push_cast
  ring

lemma anglesCore_bladeTilt (n a : ℝ) :
    (anglesCore n a).bladeTilt = round10 (toDegrees (arcsin
      (sin (toRadians ((180 - (n - 2) * 180 / n) / 2)) * sin (toRadians a)))) := rfl

lemma anglesCore_bladeTiltComplement (n a : ℝ) :
    (anglesCore n a).bladeTiltComplement =
      round10 (90 - (anglesCore n a).bladeTilt) := rfl

lemma anglesCore_miterGaugeComplement (n a : ℝ) :
    (anglesCore n a).miterGaugeComplement = round10 (toDegrees (arctan
      (cos (toRadians a) * tan (toRadians ((180 - (n - 2) * 180 / n) / 2))))) := rfl

lemma anglesCore_miterGauge (n a : ℝ) :
    (anglesCore n a).miterGauge =
      round10 (90 - (anglesCore n a).miterGaugeComplement) := rfl

lemma anglesCore_trimAngle (n a : ℝ) :
    (anglesCore n a).trimAngle = round10 a := rfl

/-- C1: for every numberOfSides in [3,60] and sideAngle in [1,90] the
record returned by `calculateAngles` satisfies
`bladeTilt + bladeTiltComplement = 90` and
`miterGauge + miterGaugeComplement = 90` exactly after one-decimal rounding,
because each complement is derived from the already-rounded partner. -/
theorem C1_complement_identity (n a : ℝ) (h3 : 3 ≤ n) (h60 : n ≤ 60)
    (h1 : 1 ≤ a) (h90 : a ≤ 90) :
    ∃ r : AngleResults, calculateAngles n a = Except.ok r ∧
      r.bladeTilt + r.bladeTiltComplement = 90 ∧
      r.miterGauge + r.miterGaugeComplement = 90 := by
  refine ⟨anglesCore n a, calculateAngles_ok h3 h60 h1 h90, ?_, ?_⟩
  · rw [anglesCore_bladeTiltComplement, anglesCore_bladeTilt]
    linarith [round10_ninety_sub (toDegrees (arcsin
      (sin (toRadians ((180 - (n - 2) * 180 / n) / 2)) * sin (toRadians a))))]
  · rw [anglesCore_miterGauge, anglesCore_miterGaugeComplement]
    linarith [round10_ninety_sub (toDegrees (arctan
      (cos (toRadians a) * tan (toRadians ((180 - (n - 2) * 180 / n) / 2)))))]

/-- Closed instance of `C1_complement_identity` at `(4, 45)`. -/
theorem C1_complement_identity_witness :
    ∃ r : AngleResults, calculateAngles 4 45 = Except.ok r ∧
      r.bladeTilt + r.bladeTiltComplement = 90 ∧
      r.miterGauge + r.miterGaugeComplement = 90 :=
  C1_complement_identity 4 45 (by norm_num) (by norm_num) (by norm_num) (by norm_num)

/-- C3: `calculateAngles` fails exactly on out-of-range inputs, with a
message naming the violated bound ("between 3 and 60" for the side count,
"between 1 and 90 degrees" for the side angle). -/
theorem C3_validation (n a : ℝ) :
    ((∃ e, calculateAngles n a = Except.error e) ↔
      (n < 3 ∨ 60 < n ∨ a < 1 ∨ 90 < a)) ∧
    ((n < 3 ∨ 60 < n) →
      calculateAngles n a = Except.error ("Number of sides must be between 3 and 60")) ∧
    (3 ≤ n → n ≤ 60 → (a < 1 ∨ 90 < a) →
      calculateAngles n a = Except.error ("Side angle must be between 1 and 90 degrees")) := by
  have hn : (n < 3 ∨ 60 < n) →
      calculateAngles n a = Except.error ("Number of sides must be between 3 and 60") := by
    intro h
    unfold calculateAngles
    rw [if_pos (by tauto)]
  have ha : 3 ≤ n → n ≤ 60 → (a < 1 ∨ 90 < a) →
      calculateAngles n a = Except.error ("Side angle must be between 1 and 90 degrees") := by
    intro h3 h60 h
    unfold calculateAngles
    rw [if_neg (by push_neg; exact ⟨by linarith, by linarith⟩), if_pos (by tauto)]
  refine ⟨⟨?_, ?_⟩, hn, ha⟩
  · rintro ⟨e, he⟩
    by_contra hcon
    push_neg at hcon
    obtain ⟨g1, g2, g3, g4⟩ := hcon
    rw [calculateAngles_ok g1 g2 g3 g4] at he
    simp at he
  · intro h
    rcases h with h | h | h | h
    · exact ⟨_, hn (Or.inl h)⟩
    · exact ⟨_, hn (Or.inr h)⟩
    · by_cases hn3 : n < 3
      · exact ⟨_, hn (Or.inl hn3)⟩
      · by_cases hn60 : 60 < n
        · exact ⟨_, hn (Or.inr hn60)⟩
        · exact ⟨_, ha (by linarith) (by linarith) (Or.inl h)⟩
    · by_cases hn3 : n < 3
      · exact ⟨_, hn (Or.inl hn3)⟩
      · by_cases hn60 : 60 < n
        · exact ⟨_, hn (Or.inr hn60)⟩
        · exact ⟨_, ha (by linarith) (by linarith) (Or.inr h)⟩

/-- Closed instances of `C3_validation` at the boundary inputs from the spec. -/
theorem C3_validation_witness :
    calculateAngles 2 45 = Except.error ("Number of sides must be between 3 and 60") ∧
    calculateAngles 61 45 = Except.error ("Number of sides must be between 3 and 60") ∧
    calculateAngles 4 0 = Except.error ("Side angle must be between 1 and 90 degrees") ∧
    calculateAngles 4 91 = Except.error ("Side angle must be between 1 and 90 degrees") :=
  ⟨(C3_validation 2 45).2.1 (by norm_num),
   (C3_validation 61 45).2.1 (by norm_num),
   (C3_validation 4 0).2.2 (by norm_num) (by norm_num) (by norm_num),
   (C3_validation 4 91).2.2 (by norm_num) (by norm_num) (by norm_num)⟩

/-- C6 as stated is false: `trimAngle` is the side angle rounded to one
decimal, so a valid side angle that is not a multiple of 0.1 is not returned
unchanged.  At `(4, 45.07)` the returned `trimAngle` is `45.1`. -/
theorem C6_trim_counterexample :
    ∃ r : AngleResults, calculateAngles 4 (4507 / 100) = Except.ok r ∧
      r.trimAngle ≠ 4507 / 100 := by
  refine ⟨anglesCore 4 (4507 / 100),
    calculateAngles_ok (by norm_num) (by norm_num) (by norm_num) (by norm_num), ?_⟩
  rw [anglesCore_trimAngle]
  unfold round10
  have h1 : (4507 : ℝ) / 100 * 10 = 4507 / 10 := by norm_num
  have h451 : round ((4507 : ℝ) / 10) = 451 := by
    rw [round_eq]
    have h2 : (4507 : ℝ) / 10 + 1 / 2 = 4512 / 10 := by norm_num
    rw [h2]
    rw [Int.floor_eq_iff]
    norm_num
  rw [h1, h451]
  norm_num

/-- C6 amended: for every valid input the returned `trimAngle` equals the
input side angle rounded to one decimal place, hence equals the side angle
itself exactly when the side angle is a whole multiple of 0.1 (in particular
for every integer side angle). -/
theorem C6_trim_amended (n a : ℝ) (h3 : 3 ≤ n) (h60 : n ≤ 60)
    (h1 : 1 ≤ a) (h90 : a ≤ 90) :
    ∃ r : AngleResults, calculateAngles n a = Except.ok r ∧
      r.trimAngle = round10 a ∧
      (∀ m : ℤ, a = (m : ℝ) / 10 → r.trimAngle = a) := by
  refine ⟨anglesCore n a, calculateAngles_ok h3 h60 h1 h90,
    anglesCore_trimAngle n a, ?_⟩
  rintro m rfl
  rw [anglesCore_trimAngle]
  exact round10_int_div_ten m

/-- Closed instance of `C6_trim_amended` at `(4, 45)`. -/
theorem C6_trim_amended_witness :
    ∃ r : AngleResults, calculateAngles 4 45 = Except.ok r ∧ r.trimAngle = 45 := by
  obtain ⟨r, hr, -, hm⟩ :=
    C6_trim_amended 4 45 (by norm_num) (by norm_num) (by norm_num) (by norm_num)
  exact ⟨r, hr, hm 450 (by norm_num)⟩

/-- C7: turning on the waste flag multiplies `calculateBoardFeet` and
`calculateCubicMeters` by exactly 1.1. -/
theorem C7_waste_factor (height stockWidth thickness numberOfSides sideAngle : ℝ) :
    calculateBoardFeet height stockWidth thickness numberOfSides sideAngle true =
      1.1 * calculateBoardFeet height stockWidth thickness numberOfSides sideAngle false ∧
    calculateCubicMeters height stockWidth thickness numberOfSides sideAngle true =
      1.1 * calculateCubicMeters height stockWidth thickness numberOfSides sideAngle false := by
  constructor
  · show calculatePieceLength height sideAngle / INCH_TO_MM * (stockWidth / INCH_TO_MM) *
        (thickness / INCH_TO_MM) * numberOfSides / BOARD_FOOT_TO_CUBIC_INCHES * 1.1 =
      1.1 * (calculatePieceLength height sideAngle / INCH_TO_MM * (stockWidth / INCH_TO_MM) *
        (thickness / INCH_TO_MM) * numberOfSides / BOARD_FOOT_TO_CUBIC_INCHES)
    ring
  · show calculatePieceLength height sideAngle * stockWidth * thickness * numberOfSides * 1.1 /
        1000000000 =
      1.1 * (calculatePieceLength height sideAngle * stockWidth * thickness * numberOfSides /
        1000000000)
    ring

lemma toRadians_360_div (n : ℝ) : toRadians (360 / n) = 2 * π / n := by
  unfold toRadians
  rcases eq_or_ne n 0 with rfl | hn
  · simp
  · field_simp
    ring

lemma toRadians_180_div (n : ℝ) : toRadians (180 / n) = π / n := by
  unfold toRadians
  rcases eq_or_ne n 0 with rfl | hn
  · simp
  · field_simp
    ring

lemma calculatePolygonArea_eq (d n : ℝ) :
    calculatePolygonArea d n = n * (d / 2) ^ 2 * sin (2 * π / n) / 2 := by
  unfold calculatePolygonArea
  rw [toRadians_360_div]

/-- C4: case analysis of `calculateInteriorVolume` on non-negative inputs:
zero when the material is too thick, the cone formula when the interior
tapers to a point, and the frustum formula otherwise, with the polygon area
`n * (d/2)^2 * sin(2π/n) / 2`; every case is an ordinary return value. -/
theorem C4_interior_volume_cases (d h n a t : ℝ) (hd : 0 ≤ d) (hh : 0 ≤ h)
    (hn : 0 ≤ n) (ha : 0 ≤ a) (ht : 0 ≤ t) :
    (d - 2 * t ≤ 0 → calculateInteriorVolume d h n a t = 0) ∧
    (0 < d - 2 * t → d - 2 * t - 2 * h * tan (toRadians (90 - a)) ≤ 0 →
      calculateInteriorVolume d h n a t =
        n * ((d - 2 * t) / 2) ^ 2 * sin (2 * π / n) / 2 * h / 3) ∧
    (0 < d - 2 * t → 0 < d - 2 * t - 2 * h * tan (toRadians (90 - a)) →
      calculateInteriorVolume d h n a t =
        h / 3 * (n * ((d - 2 * t) / 2) ^ 2 * sin (2 * π / n) / 2 +
          n * ((d - 2 * t - 2 * h * tan (toRadians (90 - a))) / 2) ^ 2 *
            sin (2 * π / n) / 2 +
          Real.sqrt ((n * ((d - 2 * t) / 2) ^ 2 * sin (2 * π / n) / 2) *
            (n * ((d - 2 * t - 2 * h * tan (toRadians (90 - a))) / 2) ^ 2 *
              sin (2 * π / n) / 2)))) := by
  refine ⟨?_, ?_, ?_⟩
  · intro h0
    simp only [calculateInteriorVolume]
    rw [if_pos h0]
  · intro h0 h1
    simp only [calculateInteriorVolume]
    rw [if_neg (not_le.mpr h0), if_pos h1, calculatePolygonArea_eq]
  · intro h0 h1
    simp only [calculateInteriorVolume]
    rw [if_neg (not_le.mpr h0), if_neg (not_le.mpr h1), calculatePolygonArea_eq,
      calculatePolygonArea_eq]

/-- Closed instance of `C4_interior_volume_cases`: at
`(diameter, height, sides, angle, thickness) = (10, 1, 4, 45, 6)` the material
is thicker than the vessel and the volume is the sentinel `0`. -/
theorem C4_interior_volume_cases_witness : calculateInteriorVolume 10 1 4 45 6 = 0 :=
  (C4_interior_volume_cases 10 1 4 45 6 (by norm_num) (by norm_num) (by norm_num)
    (by norm_num) (by norm_num)).1 (by norm_num)

lemma cos_pi_div_int_pos {n : ℤ} (hn : 4 ≤ n) :
    0 < cos (π / (n : ℝ)) ∧ cos (π / (n : ℝ)) < 1 := by
  have hn4 : (4 : ℝ) ≤ (n : ℝ) := by exact_mod_cast hn
  have hpi := pi_pos
  have hpos : 0 < π / (n : ℝ) := div_pos hpi (by linarith)
  have hle : π / (n : ℝ) ≤ π / 4 := by
    rw [div_le_div_iff (by linarith) (by norm_num)]
    nlinarith
  constructor
  · exact cos_pos_of_mem_Ioo ⟨by linarith, by linarith⟩
  · have := cos_lt_cos_of_nonneg_of_le_pi (le_refl 0) (by linarith) hpos
    rwa [cos_zero] at this

/-- C5: `calculateDistanceAcrossFlats` is `none` exactly on odd side counts;
on even side counts it is `(diameter + 2·thickness) · cos(π/n)`, which for an
even side count in the valid domain and positive dimensions is positive, is
smaller than `diameter + 2·thickness`, and strictly increases with the
thickness. -/
theorem C5_distance_across_flats :
    (∀ (d t : ℝ) (n : ℤ), calculateDistanceAcrossFlats d n t = none ↔ Odd n) ∧
    (∀ (d t : ℝ) (n : ℤ), Even n →
      calculateDistanceAcrossFlats d n t = some ((d + 2 * t) * cos (π / (n : ℝ)))) ∧
    (∀ (d t : ℝ) (n : ℤ), Even n → 4 ≤ n → 0 < d → 0 ≤ t →
      0 < (d + 2 * t) * cos (π / (n : ℝ)) ∧
      (d + 2 * t) * cos (π / (n : ℝ)) < d + 2 * t) ∧
    (∀ (d : ℝ) (n : ℤ) (t1 t2 : ℝ), Even n → 4 ≤ n → t1 < t2 →
      (d + 2 * t1) * cos (π / (n : ℝ)) < (d + 2 * t2) * cos (π / (n : ℝ))) := by
  have heven : ∀ (d t : ℝ) (n : ℤ), Even n →
      calculateDistanceAcrossFlats d n t = some ((d + 2 * t) * cos (π / (n : ℝ))) := by
    intro d t n he
    unfold calculateDistanceAcrossFlats
    rw [if_neg (by simp [Int.even_iff.mp he]), toRadians_180_div]
  refine ⟨?_, heven, ?_, ?_⟩
  · intro d t n
    constructor
    · intro hnone
      by_contra hodd
      rw [Int.not_odd_iff_even] at hodd
      rw [heven d t n hodd] at hnone
      simp at hnone
    · intro hodd
      unfold calculateDistanceAcrossFlats
      rw [if_pos (by rw [Int.odd_iff] at hodd; omega)]
  · intro d t n he hn hd ht
    obtain ⟨hc0, hc1⟩ := cos_pi_div_int_pos hn
    constructor
    · exact mul_pos (by linarith) hc0
    · nlinarith
  · intro d n t1 t2 he hn hlt
    obtain ⟨hc0, _⟩ := cos_pi_div_int_pos hn
    exact mul_lt_mul_of_pos_right (by linarith) hc0

/-- Closed instances of `C5_distance_across_flats` at side counts 3 and 4. -/
theorem C5_distance_across_flats_witness :
    calculateDistanceAcrossFlats 100 3 10 = none ∧
    calculateDistanceAcrossFlats 100 4 10 =
      some ((100 + 2 * 10) * cos (π / ((4 : ℤ) : ℝ))) ∧
    0 < (100 + 2 * 10 : ℝ) * cos (π / ((4 : ℤ) : ℝ)) ∧
    (100 + 2 * 10 : ℝ) * cos (π / ((4 : ℤ) : ℝ)) < 100 + 2 * 10 :=
  ⟨(C5_distance_across_flats.1 100 10 3).mpr (by decide),
   C5_distance_across_flats.2.1 100 10 4 (by decide),
   (C5_distance_across_flats.2.2.1 100 10 4 (by decide) (by norm_num) (by norm_num)
     (by norm_num)).1,
   (C5_distance_across_flats.2.2.1 100 10 4 (by decide) (by norm_num) (by norm_num)
     (by norm_num)).2⟩

/-- C9: `getSmartVolumeUnit` picks the unit purely by magnitude thresholds:
imperial 0.25 gal and 1 gal, metric 0.1 L and 1000 L. -/
theorem C9_smart_volume_unit (v : ℝ) :
    (convertVolume v VolumeUnit.gallons < 0.25 →
      getSmartVolumeUnit v UnitSystem.imperial = VolumeUnit.fluid_ounces) ∧
    (0.25 ≤ convertVolume v VolumeUnit.gallons → convertVolume v VolumeUnit.gallons < 1 →
      getSmartVolumeUnit v UnitSystem.imperial = VolumeUnit.quarts) ∧
    (1 ≤ convertVolume v VolumeUnit.gallons →
      getSmartVolumeUnit v UnitSystem.imperial = VolumeUnit.gallons) ∧
    (convertVolume v VolumeUnit.liters < 0.1 →
      getSmartVolumeUnit v UnitSystem.metric = VolumeUnit.milliliters) ∧
    (0.1 ≤ convertVolume v VolumeUnit.liters → convertVolume v VolumeUnit.liters < 1000 →
      getSmartVolumeUnit v UnitSystem.metric = VolumeUnit.liters) ∧
    (1000 ≤ convertVolume v VolumeUnit.liters →
      getSmartVolumeUnit v UnitSystem.metric = VolumeUnit.cubic_meters) := by
  refine ⟨?_, ?_, ?_, ?_, ?_, ?_⟩
  · intro h1
    simp only [getSmartVolumeUnit]
    rw [if_pos h1]
  · intro h1 h2
    simp only [getSmartVolumeUnit]
    rw [if_neg (not_lt.mpr h1), if_pos h2]
  · intro h1
    simp only [getSmartVolumeUnit]
    rw [if_neg (by push_neg; norm_num; linarith), if_neg (not_lt.mpr h1)]
  · intro h1
    simp only [getSmartVolumeUnit]
    rw [if_pos h1]
  · intro h1 h2
    simp only [getSmartVolumeUnit]
    rw [if_neg (not_lt.mpr h1), if_pos h2]
  · intro h1
    simp only [getSmartVolumeUnit]
    rw [if_neg (by push_neg; norm_num; linarith), if_neg (not_lt.mpr h1)]

/-- Closed instances of `C9_smart_volume_unit` at volume `0`. -/
theorem C9_smart_volume_unit_witness :
    getSmartVolumeUnit 0 UnitSystem.imperial = VolumeUnit.fluid_ounces ∧
    getSmartVolumeUnit 0 UnitSystem.metric = VolumeUnit.milliliters :=
  ⟨(C9_smart_volume_unit 0).1 (by norm_num [convertVolume]),
   (C9_smart_volume_unit 0).2.2.2.1 (by norm_num [convertVolume])⟩

/-- C10: only `calculateAngles` validates its domain.  The other calculators
are total functions: on arbitrary real inputs (including ones outside the
documented domains) each returns a plain numeric value, or `none` exactly for
odd side counts in `calculateDistanceAcrossFlats`, while out-of-domain input
makes `calculateAngles` (and only it) produce an error. -/
theorem C10_totality (d h n a t : ℝ) (m : ℤ) (w : Bool) :
    (∃ v : ℝ, calculateStockWidth d n a = v) ∧
    (∃ v : ℝ, calculateInteriorVolume d h n a t = v) ∧
    (∃ v : ℝ, calculateBoardFeet h d t n a w = v) ∧
    (∃ v : ℝ, calculateCubicMeters h d t n a w = v) ∧
    (Odd m → calculateDistanceAcrossFlats d m t = none) ∧
    (¬Odd m → ∃ v : ℝ, calculateDistanceAcrossFlats d m t = some v) ∧
    ((n < 3 ∨ 60 < n ∨ a < 1 ∨ 90 < a) → ∃ e, calculateAngles n a = Except.error e) := by
  refine ⟨⟨_, rfl⟩, ⟨_, rfl⟩, ⟨_, rfl⟩, ⟨_, rfl⟩, ?_, ?_, ?_⟩
  · intro hodd
    unfold calculateDistanceAcrossFlats
    rw [if_pos (by rw [Int.odd_iff] at hodd; omega)]
  · intro heven
    rw [Int.not_odd_iff_even] at heven
    unfold calculateDistanceAcrossFlats
    rw [if_neg (by simp [Int.even_iff.mp heven])]
    exact ⟨_, rfl⟩
  · intro hcon
    by_cases hn3 : n < 3 ∨ n > 60
    · exact ⟨_, by unfold calculateAngles; rw [if_pos hn3]⟩
    · have hrange : a < 1 ∨ a > 90 := by tauto
      exact ⟨_, by unfold calculateAngles; rw [if_neg hn3, if_pos hrange]⟩

/-- Closed instances of `C10_totality`, including out-of-domain inputs. -/
theorem C10_totality_witness :
    (∃ v : ℝ, calculateStockWidth 1 2 0 = v) ∧
    calculateDistanceAcrossFlats 1 3 1 = none ∧
    (∃ v : ℝ, calculateDistanceAcrossFlats 1 4 1 = some v) ∧
    (∃ e, calculateAngles 2 0 = Except.error e) :=
  ⟨(C10_totality 1 1 2 0 1 3 true).1,
   (C10_totality 1 1 2 0 1 3 true).2.2.2.2.1 (by decide),
   (C10_totality 1 1 2 0 1 4 true).2.2.2.2.2.1 (by decide),
   (C10_totality 1 1 2 0 1 3 true).2.2.2.2.2.2 (by norm_num)⟩

/-! Numeric bounds machinery: rational enclosures of `sin` at concrete
arguments via the quartic Taylor remainder, used to evaluate the shipped
blade-tilt at reference inputs. -/

lemma sin_taylor_lb {x a b : ℝ} (h0 : 0 ≤ a) (hax : a ≤ x) (hxb : x ≤ b)
    (hb1 : b ≤ 1) : a - b ^ 3 / 6 - b ^ 4 * (5 / 96) ≤ sin x := by
  have hx0 : 0 ≤ x := le_trans h0 hax
  have hx1 : |x| ≤ 1 := by rw [abs_of_nonneg hx0]; linarith
  have h := Real.sin_bound hx1
  rw [abs_of_nonneg hx0] at h
  rw [abs_sub_le_iff] at h
  have h3 : x ^ 3 ≤ b ^ 3 := pow_le_pow_left hx0 hxb 3
  have h4 : x ^ 4 ≤ b ^ 4 := pow_le_pow_left hx0 hxb 4
  linarith [h.2]

lemma sin_taylor_ub {x a b : ℝ} (h0 : 0 ≤ a) (hax : a ≤ x) (hxb : x ≤ b)
    (hb1 : b ≤ 1) : sin x ≤ b - a ^ 3 / 6 + b ^ 4 * (5 / 96) := by
  have hx0 : 0 ≤ x := le_trans h0 hax
  have hx1 : |x| ≤ 1 := by rw [abs_of_nonneg hx0]; linarith
  have h := Real.sin_bound hx1
  rw [abs_of_nonneg hx0] at h
  rw [abs_sub_le_iff] at h
  have h3 : a ^ 3 ≤ x ^ 3 := pow_le_pow_left h0 hax 3
  have h4 : x ^ 4 ≤ b ^ 4 := pow_le_pow_left hx0 hxb 4
  linarith [h.1]

lemma le_of_sq_le_of_nonneg {a b : ℝ} (ha : 0 ≤ a) (hb : 0 ≤ b)
    (h : a ^ 2 ≤ b ^ 2) : a ≤ b := by nlinarith

lemma lt_of_sq_lt_of_nonneg {a b : ℝ} (ha : 0 ≤ a) (hb : 0 ≤ b)
    (h : a ^ 2 < b ^ 2) : a < b := by nlinarith

lemma sin_pi_div_18_bounds :
    (0.173598 : ℝ) ≤ sin (π / 18) ∧ sin (π / 18) ≤ 0.173696 := by
  have hpl := Real.pi_gt_d6
  have hpu := Real.pi_lt_d6
  have ha : (0.1745328 : ℝ) ≤ π / 18 := by linarith
  have hb : π / 18 ≤ (0.1745330 : ℝ) := by linarith
  constructor
  · have h := sin_taylor_lb (by norm_num : (0:ℝ) ≤ 0.1745328) ha hb (by norm_num)
    have hnum : (0.173598 : ℝ) ≤
        0.1745328 - 0.1745330 ^ 3 / 6 - 0.1745330 ^ 4 * (5 / 96) := by norm_num
    linarith
  · have h := sin_taylor_ub (by norm_num : (0:ℝ) ≤ 0.1745328) ha hb (by norm_num)
    have hnum : (0.1745330 : ℝ) - 0.1745328 ^ 3 / 6 + 0.1745330 ^ 4 * (5 / 96) ≤
        0.173696 := by norm_num
    linarith

lemma sin_sq_pi_div_9_bounds :
    (0.1169 : ℝ) ≤ sin (π / 9) ^ 2 ∧ sin (π / 9) ^ 2 ≤ 0.11705 := by
  obtain ⟨hsl, hsu⟩ := sin_pi_div_18_bounds
  have h1 : sin (π / 9) ^ 2 = 4 * sin (π / 18) ^ 2 * cos (π / 18) ^ 2 := by
    rw [show π / 9 = 2 * (π / 18) by ring, Real.sin_two_mul]
    ring
  rw [Real.cos_sq'] at h1
  have h2l : (0.030136 : ℝ) ≤ sin (π / 18) ^ 2 := by nlinarith
  have h2u : sin (π / 18) ^ 2 ≤ (0.0301704 : ℝ) := by nlinarith
  constructor
  · rw [h1]
    nlinarith [mul_nonneg (sub_nonneg.mpr h2l) (sub_nonneg.mpr h2u)]
  · rw [h1]
    nlinarith [mul_nonneg (sub_nonneg.mpr h2l) (sub_nonneg.mpr h2u)]

lemma sin_23_600_lb : (0.1201 : ℝ) ≤ sin (23 * π / 600) := by
  have hpl := Real.pi_gt_d6
  have hpu := Real.pi_lt_d6
  have ha : (0.1204276 : ℝ) ≤ 23 * π / 600 := by linarith
  have hb : 23 * π / 600 ≤ (0.1204278 : ℝ) := by linarith
  have h := sin_taylor_lb (by norm_num : (0:ℝ) ≤ 0.1204276) ha hb (by norm_num)
  have hnum : (0.1201 : ℝ) ≤
      0.1204276 - 0.1204278 ^ 3 / 6 - 0.1204278 ^ 4 * (5 / 96) := by norm_num
  linarith

lemma sin_67_1800_ub : sin (67 * π / 1800) ≤ (0.11669 : ℝ) := by
  have hpl := Real.pi_gt_d6
  have hpu := Real.pi_lt_d6
  have ha : (0.1169370 : ℝ) ≤ 67 * π / 1800 := by linarith
  have hb : 67 * π / 1800 ≤ (0.1169371 : ℝ) := by linarith
  have h := sin_taylor_ub (by norm_num : (0:ℝ) ≤ 0.1169370) ha hb (by norm_num)
  have hnum : (0.1169371 : ℝ) - 0.1169370 ^ 3 / 6 + 0.1169371 ^ 4 * (5 / 96) ≤
      0.11669 := by norm_num
  linarith

lemma sin_601_3600_ub : sin (601 * π / 3600) ≤ (0.5044 : ℝ) := by
  have hpl := Real.pi_gt_d6
  have hpu := Real.pi_lt_d6
  have ha : (0.5244713 : ℝ) ≤ 601 * π / 3600 := by linarith
  have hb : 601 * π / 3600 ≤ (0.5244716 : ℝ) := by linarith
  have h := sin_taylor_ub (by norm_num : (0:ℝ) ≤ 0.5244713) ha hb (by norm_num)
  have hnum : (0.5244716 : ℝ) - 0.5244713 ^ 3 / 6 + 0.5244716 ^ 4 * (5 / 96) ≤
      0.5044 := by norm_num
  linarith

lemma bladeTilt_root_bounds :
    277 * π / 1200 ≤ arcsin (√2 / 2 * cos (π / 9)) ∧
    arcsin (√2 / 2 * cos (π / 9)) < 833 * π / 3600 := by
  have hpi := Real.pi_pos
  have hsq2 : (√2 : ℝ) ^ 2 = 2 := Real.sq_sqrt (by norm_num)
  have hsq2n : (0 : ℝ) ≤ √2 := Real.sqrt_nonneg 2
  have hsq2lt : (√2 : ℝ) < 1.5 := by nlinarith
  have hc9pos : 0 < cos (π / 9) := Real.cos_pos_of_mem_Ioo ⟨by linarith, by linarith⟩
  have hc9le : cos (π / 9) ≤ 1 := Real.cos_le_one _
  have hp0 : 0 ≤ √2 / 2 * cos (π / 9) := by positivity
  have hp1 : √2 / 2 * cos (π / 9) ≤ 1 := by nlinarith
  have hpsq : (√2 / 2 * cos (π / 9)) ^ 2 = 1 / 2 * (1 - sin (π / 9) ^ 2) := by
    rw [mul_pow, div_pow, hsq2, Real.cos_sq']
    ring
  obtain ⟨h9l, h9u⟩ := sin_sq_pi_div_9_bounds
  constructor
  · have hc1a : (0 : ℝ) ≤ 277 * π / 1200 := by positivity
    have hc1b : 277 * π / 1200 ≤ π / 2 := by linarith
    have hs1nn : 0 ≤ sin (277 * π / 1200) :=
      Real.sin_nonneg_of_nonneg_of_le_pi hc1a (by linarith)
    have hsq1 : sin (277 * π / 1200) ^ 2 = 1 / 2 - sin (23 * π / 600) / 2 := by
      rw [Real.sin_sq_eq_half_sub, show 2 * (277 * π / 1200) = π / 2 - 23 * π / 600 by ring,
        Real.cos_pi_div_two_sub]
    have hle : sin (277 * π / 1200) ≤ √2 / 2 * cos (π / 9) := by
      apply le_of_sq_le_of_nonneg hs1nn hp0
      rw [hsq1, hpsq]
      linarith [sin_23_600_lb]
    have harc := Real.monotone_arcsin hle
    rwa [Real.arcsin_sin (by linarith) hc1b] at harc
  · have hc2b : 833 * π / 3600 ≤ π / 2 := by linarith
    have hs2nn : 0 ≤ sin (833 * π / 3600) :=
      Real.sin_nonneg_of_nonneg_of_le_pi (by positivity) (by linarith)
    have hsq2' : sin (833 * π / 3600) ^ 2 = 1 / 2 - sin (67 * π / 1800) / 2 := by
      rw [Real.sin_sq_eq_half_sub, show 2 * (833 * π / 3600) = π / 2 - 67 * π / 1800 by ring,
        Real.cos_pi_div_two_sub]
    have hlt : √2 / 2 * cos (π / 9) < sin (833 * π / 3600) := by
      apply lt_of_sq_lt_of_nonneg hp0 hs2nn
      rw [hsq2', hpsq]
      linarith [sin_67_1800_ub]
    have harc := Real.strictMonoOn_arcsin (Set.mem_Icc.mpr ⟨by linarith, hp1⟩)
      (Set.mem_Icc.mpr ⟨by linarith [Real.neg_one_le_sin (833 * π / 3600)],
        Real.sin_le_one _⟩) hlt
    rwa [Real.arcsin_sin (by linarith) hc2b] at harc

lemma bladeTilt_4_70 : (anglesCore 4 70).bladeTilt = 41.6 := by
  rw [anglesCore_bladeTilt]
  have e1 : toRadians ((180 - ((4 : ℝ) - 2) * 180 / 4) / 2) = π / 4 := by
    unfold toRadians
    ring
  have e2 : toRadians (70 : ℝ) = 7 * π / 18 := by
    unfold toRadians
    ring
  rw [e1, e2, Real.sin_pi_div_four, show 7 * π / 18 = π / 2 - π / 9 by ring,
    Real.sin_pi_div_two_sub]
  obtain ⟨hl, hu⟩ := bladeTilt_root_bounds
  have hpi := Real.pi_pos
  have hdeg : toDegrees (arcsin (√2 / 2 * cos (π / 9))) * 10 =
      1800 * arcsin (√2 / 2 * cos (π / 9)) / π := by
    unfold toDegrees
    ring
  have hlow : (415.5 : ℝ) ≤ 1800 * arcsin (√2 / 2 * cos (π / 9)) / π := by
    have h1 : 1800 * (277 * π / 1200) / π ≤ 1800 * arcsin (√2 / 2 * cos (π / 9)) / π := by
      gcongr
    have h2 : 1800 * (277 * π / 1200) / π = 415.5 := by
      field_simp
      ring
    linarith
  have hhigh : 1800 * arcsin (√2 / 2 * cos (π / 9)) / π < (416.5 : ℝ) := by
    have h1 : 1800 * arcsin (√2 / 2 * cos (π / 9)) / π < 1800 * (833 * π / 3600) / π := by
      gcongr
    have h2 : 1800 * (833 * π / 3600) / π = 416.5 := by
      field_simp
      ring
    linarith
  unfold round10
  have hr : round (toDegrees (arcsin (√2 / 2 * cos (π / 9))) * 10) = 416 := by
    rw [round_eq, hdeg, Int.floor_eq_iff]
    constructor
    · push_cast
      linarith
    · push_cast
      linarith
  rw [hr]
  norm_num

/-- C2: for every valid input the returned blade tilt is
`asin(sin(miterAngle)·sin(sideAngle))` in degrees rounded to one decimal,
with `miterAngle = (180 − interiorAngle)/2` and
`interiorAngle = (n−2)·180/n`; at 4 sides and a 70° side angle the returned
blade tilt is 41.6°. -/
theorem C2_blade_tilt_formula :
    (∀ n a : ℝ, 3 ≤ n → n ≤ 60 → 1 ≤ a → a ≤ 90 →
      ∃ r : AngleResults, calculateAngles n a = Except.ok r ∧
        r.bladeTilt = round10 (toDegrees (arcsin
          (sin (toRadians ((180 - (n - 2) * 180 / n) / 2)) * sin (toRadians a))))) ∧
    (∃ r : AngleResults, calculateAngles 4 70 = Except.ok r ∧ r.bladeTilt = 41.6) := by
  constructor
  · intro n a h3 h60 h1 h90
    exact ⟨anglesCore n a, calculateAngles_ok h3 h60 h1 h90, anglesCore_bladeTilt n a⟩
  · exact ⟨anglesCore 4 70,
      calculateAngles_ok (by norm_num) (by norm_num) (by norm_num) (by norm_num),
      bladeTilt_4_70⟩

/-- Closed instance of `C2_blade_tilt_formula` at `(3, 45)`. -/
theorem C2_blade_tilt_formula_witness :
    ∃ r : AngleResults, calculateAngles 3 45 = Except.ok r ∧
      r.bladeTilt = round10 (toDegrees (arcsin
        (sin (toRadians ((180 - ((3 : ℝ) - 2) * 180 / 3) / 2)) * sin (toRadians 45)))) :=
  C2_blade_tilt_formula.1 3 45 (by norm_num) (by norm_num) (by norm_num) (by norm_num)

lemma anglesCoreLegacy_bladeTilt (n a : ℝ) :
    (anglesCoreLegacy n a).bladeTilt = round10 (toDegrees (arctan
      (tan (toRadians a) * sin (toRadians ((180 - (n - 2) * 180 / n) / 2))))) := rfl

lemma bladeTilt_asin_4_45 : (anglesCore 4 45).bladeTilt = 30 := by
  rw [anglesCore_bladeTilt]
  have e1 : toRadians ((180 - ((4 : ℝ) - 2) * 180 / 4) / 2) = π / 4 := by
    unfold toRadians
    ring
  have e2 : toRadians (45 : ℝ) = π / 4 := by
    unfold toRadians
    ring
  rw [e1, e2, Real.sin_pi_div_four]
  have hhalf : (√2 : ℝ) / 2 * (√2 / 2) = 1 / 2 := by
    rw [div_mul_div_comm, Real.mul_self_sqrt (by norm_num : (0:ℝ) ≤ 2)]
    norm_num
  rw [hhalf]
  have hpi := Real.pi_pos
  have harc : arcsin (1 / 2 : ℝ) = π / 6 := by
    rw [show (1 : ℝ) / 2 = sin (π / 6) from (Real.sin_pi_div_six).symm]
    exact Real.arcsin_sin (by linarith) (by linarith)
  rw [harc]
  have hne := Real.pi_ne_zero
  have hdeg : toDegrees (π / 6) = 30 := by
    unfold toDegrees
    field_simp
    ring
  rw [hdeg, show (30 : ℝ) = ((300 : ℤ) : ℝ) / 10 by norm_num, round10_int_div_ten]

lemma bladeTilt_atan_4_45_gt : 30 < (anglesCoreLegacy 4 45).bladeTilt := by
  rw [anglesCoreLegacy_bladeTilt]
  have e1 : toRadians ((180 - ((4 : ℝ) - 2) * 180 / 4) / 2) = π / 4 := by
    unfold toRadians
    ring
  have e2 : toRadians (45 : ℝ) = π / 4 := by
    unfold toRadians
    ring
  rw [e1, e2, Real.tan_pi_div_four, Real.sin_pi_div_four, one_mul]
  have hpi := Real.pi_pos
  have hpl := Real.pi_gt_d6
  have hpu := Real.pi_lt_d6
  have hcpos : (0 : ℝ) < 601 * π / 3600 := by positivity
  have hclt : 601 * π / 3600 < π / 2 := by linarith
  have hsin_nn : 0 ≤ sin (601 * π / 3600) :=
    Real.sin_nonneg_of_nonneg_of_le_pi (le_of_lt hcpos) (by linarith)
  have hcos_pos : 0 < cos (601 * π / 3600) :=
    Real.cos_pos_of_mem_Ioo ⟨by linarith, hclt⟩
  have hpyth := Real.sin_sq_add_cos_sq (601 * π / 3600)
  have hsin_ub := sin_601_3600_ub
  have hsq2 : (√2 : ℝ) ^ 2 = 2 := Real.sq_sqrt (by norm_num)
  have hsq2n : (0 : ℝ) ≤ √2 := Real.sqrt_nonneg 2
  have htan : tan (601 * π / 3600) < √2 / 2 := by
    rw [Real.tan_eq_sin_div_cos, div_lt_div_iff hcos_pos (by norm_num : (0:ℝ) < 2)]
    apply lt_of_sq_lt_of_nonneg (mul_nonneg hsin_nn (by norm_num))
      (mul_nonneg hsq2n (le_of_lt hcos_pos))
    rw [mul_pow, mul_pow, hsq2]
    nlinarith
  have harctan : 601 * π / 3600 < arctan (√2 / 2) := by
    have h := Real.arctan_strictMono htan
    rwa [Real.arctan_tan (by linarith) hclt] at h
  have hdeg : toDegrees (arctan (√2 / 2)) * 10 = 1800 * arctan (√2 / 2) / π := by
    unfold toDegrees
    ring
  have hgt : (300.5 : ℝ) < 1800 * arctan (√2 / 2) / π := by
    have h1 : 1800 * (601 * π / 3600) / π < 1800 * arctan (√2 / 2) / π := by gcongr
    have h2 : 1800 * (601 * π / 3600) / π = 300.5 := by
      field_simp
      ring
    linarith
  unfold round10
  have hfl : (301 : ℤ) ≤ round (toDegrees (arctan (√2 / 2)) * 10) := by
    rw [round_eq, hdeg, Int.le_floor]
    push_cast
    linarith
  have hcast : ((301 : ℤ) : ℝ) ≤ ((round (toDegrees (arctan (√2 / 2)) * 10) : ℤ) : ℝ) := by
    exact_mod_cast hfl
  push_cast at hcast
  linarith

/-- C8: the shipped `calculateAngles` computes the blade tilt with the
arcsin formula, and that formula is not equivalent to the earlier
arctan-based one: at the valid input `(4, 45)` the shipped version returns
30.0° while the legacy version returns a strictly larger value. -/
theorem C8_formula_not_equivalent :
    (∀ n a : ℝ, 3 ≤ n → n ≤ 60 → 1 ≤ a → a ≤ 90 →
      ∃ r : AngleResults, calculateAngles n a = Except.ok r ∧
        r.bladeTilt = round10 (toDegrees (arcsin
          (sin (toRadians ((180 - (n - 2) * 180 / n) / 2)) * sin (toRadians a))))) ∧
    (∃ r : AngleResults, ∃ s : AngleResultsLegacy,
      calculateAngles 4 45 = Except.ok r ∧
      calculateAnglesLegacy 4 45 = Except.ok s ∧
      r.bladeTilt ≠ s.bladeTilt) := by
  constructor
  · intro n a h3 h60 h1 h90
    exact ⟨anglesCore n a, calculateAngles_ok h3 h60 h1 h90, anglesCore_bladeTilt n a⟩
  · refine ⟨anglesCore 4 45, anglesCoreLegacy 4 45,
      calculateAngles_ok (by norm_num) (by norm_num) (by norm_num) (by norm_num),
      calculateAnglesLegacy_ok (by norm_num) (by norm_num) (by norm_num) (by norm_num), ?_⟩
    rw [bladeTilt_asin_4_45]
    exact ne_of_lt bladeTilt_atan_4_45_gt

/-- Closed instance of `C8_formula_not_equivalent` at `(4, 60)`. -/
theorem C8_formula_not_equivalent_witness :
    ∃ r : AngleResults, calculateAngles 4 60 = Except.ok r ∧
      r.bladeTilt = round10 (toDegrees (arcsin
        (sin (toRadians ((180 - ((4 : ℝ) - 2) * 180 / 4) / 2)) * sin (toRadians 60)))) :=
  C8_formula_not_equivalent.1 4 60 (by norm_num) (by norm_num) (by norm_num) (by norm_num)
